import Mathlib

/-!
# dllthread (Win32): a joinable worker thread that is safe to join during DLL unload

A verification development over `dllthread-win32.cpp`.  Every member function is
embedded as a pure function from the object state and the answers of the
operating system to the new object state, the ordered list of operating-system
operations issued, and the exception thrown (if any).  The destructor is `noexcept`,
so an exception reaching its end is recorded as a call of `std::terminate`.
-/

namespace Dllthread

/-! ## Win32 vocabulary -/

/-- Win32 `HANDLE`, as the numeric value of the pointer. -/
abbrev HANDLE := Nat

/-- Win32 `DWORD`. -/
abbrev DWORD := Nat

/-- Address of the heap allocated `InitStruct`. -/
abbrev Ptr := Nat

/-- Win32 `INVALID_HANDLE_VALUE`, that is `(HANDLE)-1` on a 64 bit target. -/
def INVALID_HANDLE_VALUE : HANDLE := 2 ^ 64 - 1

/-- The null handle returned by `CreateEvent` and `CreateThread` on failure. -/
def nullptr : HANDLE := 0

/-- Win32 `WAIT_OBJECT_0`. -/
def WAIT_OBJECT_0 : DWORD := 0

/-- Win32 `WAIT_TIMEOUT`. -/
def WAIT_TIMEOUT : DWORD := 258

/-- Win32 `WAIT_FAILED`. -/
def WAIT_FAILED : DWORD := 0xFFFFFFFF

/-- Win32 `INFINITE`. -/
def INFINITE : DWORD := 0xFFFFFFFF

/-- Win32 `ERROR_NOT_ENOUGH_MEMORY`, one of the codes `GetLastError` can report. -/
def ERROR_NOT_ENOUGH_MEMORY : DWORD := 8

/-- The exceptions thrown by the code, by C++ class, with the `what()` text and, for
`std::system_error`, the error code given to the constructor (always in
`std::system_category()`). -/
inductive StdException where
  | invalid_argument (what : String)
  | runtime_error (what : String)
  | system_error (code : Int) (what : String)
  deriving DecidableEq, Repr

/-- The C++ class of an exception: what a `catch` clause discriminates on. -/
inductive ExceptionClass where
  | invalid_argument
  | runtime_error
  | system_error
  deriving DecidableEq, Repr

/-- Class of a thrown exception. -/
def StdException.cls : StdException → ExceptionClass
  | .invalid_argument _ => .invalid_argument
  | .runtime_error _ => .runtime_error
  | .system_error _ _ => .system_error

/-- One operation issued to the operating system (or to the heap, or to the shared
`InitStruct`), in the order the code issues them.  `GetCurrentThreadId` and
`GetCurrentProcess` are read-only queries; their answers are inputs and they are not
recorded. -/
inductive OsCall where
  | WaitForMultipleObjects (handles : List HANDLE) (waitAll : Bool) (ms : DWORD)
  | WaitForSingleObject (h : HANDLE) (ms : DWORD)
  | StoreCancelled (init : Ptr) (v : Bool)
  | MemoryBarrier
  | SuspendThread (h : HANDLE)
  | TerminateThread (h : HANDLE) (exitCode : DWORD)
  | CloseHandle (h : HANDLE)
  | SetEvent (h : HANDLE)
  | InvokeFn (fn : Nat)
  | NewInitStruct (p : Ptr)
  | FreeInitStruct (p : Ptr)
  | CreateEvent (manualReset : Bool) (initialState : Bool)
  | DuplicateHandle (src : HANDLE)
  | CreateThread (param : Ptr)
  deriving DecidableEq, Repr

/-! ## The object -/

/-- The data members of `class dllthread`. -/
structure dllthread where
  m_thread : HANDLE
  m_threadStarted : HANDLE
  m_threadEnded : HANDLE
  m_id : DWORD
  m_initstruct : Ptr
  deriving DecidableEq, Repr

/-- The heap allocated `struct dllthread::InitStruct`; `m_fn` is the identity of the
stored closure, whose body is not part of this repository. -/
structure InitStruct where
  m_fn : Nat
  m_threadStarted : HANDLE
  m_threadEnded : HANDLE
  m_threadCancelled : Bool
  deriving DecidableEq, Repr

/-- What a member function leaves behind: the object, the operations issued in order,
and the exception that left the function, if one did. -/
structure Outcome where
  obj : dllthread
  trace : List OsCall
  thrown : Option StdException
  deriving DecidableEq, Repr

/-- Modelled from the spec: `dllthread::joinable()` is declared in `dllthread.hpp`, which
is not among the sources.  The glossary calls a handle joinable when it "has an
associated, not-yet-reclaimed OS thread", and the data model says `workHandle` is the
"ownership handle of the OS thread, or empty sentinel": the object is joinable exactly
when `m_thread` is not the empty sentinel. -/
def dllthread.joinable (self : dllthread) : Bool :=
  self.m_thread != INVALID_HANDLE_VALUE

/-- Member `dllthread::reset`. -/
def dllthread.reset (obj : dllthread) : dllthread :=
  { obj with
    m_threadStarted := INVALID_HANDLE_VALUE
    m_threadEnded := INVALID_HANDLE_VALUE
    m_thread := INVALID_HANDLE_VALUE
    m_id := 0 }

/-- Member `dllthread::detach`. -/
def dllthread.detach (self : dllthread) : Outcome :=
  if !self.joinable then
    { obj := self, trace := [],
      thrown := some (.runtime_error "This thread is null or has been detached already") }
  else
    { obj := self.reset,
      trace := [.CloseHandle self.m_thread, .CloseHandle self.m_threadStarted,
                .CloseHandle self.m_threadEnded],
      thrown := none }

/-- What the operating system answers during one call of `join()`: the id of the calling
thread, the value returned by `WaitForMultipleObjects`, and the value returned by the
zero-timeout `WaitForSingleObject(m_thread, 0)`. -/
structure JoinEnv where
  currentThreadId : DWORD
  waitResult : DWORD
  pollResult : DWORD
  deriving DecidableEq, Repr

/-- The `switch (ret)` of `dllthread::join`: the operations issued by the selected case. -/
def dllthread.joinSwitch (self : dllthread) (env : JoinEnv) : List OsCall :=
  if env.waitResult = WAIT_OBJECT_0 then
    if env.pollResult = WAIT_TIMEOUT then
      [.WaitForSingleObject self.m_thread 0, .WaitForSingleObject self.m_threadEnded INFINITE]
    else
      [.WaitForSingleObject self.m_thread 0]
  else if env.waitResult = WAIT_OBJECT_0 + 1 then
    []
  else
    [.StoreCancelled self.m_initstruct true, .MemoryBarrier,
     .SuspendThread self.m_thread, .TerminateThread self.m_thread 0]

/-- Member `dllthread::join`. -/
def dllthread.join (self : dllthread) (env : JoinEnv) : Outcome :=
  if !self.joinable then
    { obj := self, trace := [],
      thrown := some (.invalid_argument "This thread is not joinable") }
  else if env.currentThreadId = self.m_id then
    { obj := self, trace := [],
      thrown := some (.runtime_error "Can't join. Possible deadlock.") }
  else
    let waited : List OsCall :=
      .WaitForMultipleObjects [self.m_threadStarted, self.m_threadEnded] false 3000
        :: self.joinSwitch env
    let d := self.detach
    { obj := d.obj, trace := waited ++ d.trace, thrown := d.thrown }

/-- How a run of the destructor ends: the object, the operations issued in order, and
the exception on whose account `std::terminate` was called, if it was. -/
structure DestructorOutcome where
  obj : dllthread
  trace : List OsCall
  terminateCalled : Option StdException
  deriving DecidableEq, Repr

/-- Destructor `dllthread::~dllthread`.  Its definition carries no exception
specification, so it is `noexcept`: an exception thrown by `join()` cannot leave it and
`std::terminate` is called instead, with the object as `join()` left it. -/
def dllthread.destructor (self : dllthread) (env : JoinEnv) : DestructorOutcome :=
  if self.joinable then
    let j := self.join env
    { obj := j.obj, trace := j.trace, terminateCalled := j.thrown }
  else { obj := self, trace := [], terminateCalled := none }

/-! ## The worker side -/

/-- Destructor `InitStruct::~InitStruct`: both duplicated handles are closed and overwritten. -/
def InitStruct.destructor (self : InitStruct) : InitStruct × List OsCall :=
  ({ self with m_threadStarted := INVALID_HANDLE_VALUE, m_threadEnded := INVALID_HANDLE_VALUE },
   [.CloseHandle self.m_threadStarted, .CloseHandle self.m_threadEnded])

/-- The statement `delete init;`: the destructor runs, then the storage is freed. -/
def deleteInit (p : Ptr) (init : InitStruct) : List OsCall :=
  init.destructor.2 ++ [.FreeInitStruct p]

/-- Member `dllthread::threadstart`, run on the `InitStruct` stored at `param`.  The field
`m_threadCancelled` of the argument is the value the `volatile` flag has when the `if`
reads it.  The result is the operations issued and the thread exit code. -/
def dllthread.threadstart (param : Ptr) (init : InitStruct) : List OsCall × DWORD :=
  ([.SetEvent init.m_threadStarted]
    ++ (if !init.m_threadCancelled then [.InvokeFn init.m_fn] else [])
    ++ [.SetEvent init.m_threadEnded]
    ++ deleteInit param init,
   0)

/-! ## Construction -/

/-- What the operating system answers during `init()`: the address `new` returns, the
handle each `CreateEvent` returns (`nullptr` on failure), the handle each
`DuplicateHandle` stores (`none` when it returns `FALSE`, leaving the target as it was),
the handle `CreateThread` returns (`nullptr` on failure) with the thread id it stores on
success, and the code `GetLastError()` reports after a failed call. -/
structure InitEnv where
  newPtr : Ptr
  createEvent1 : HANDLE
  createEvent2 : HANDLE
  duplicate1 : Option HANDLE
  duplicate2 : Option HANDLE
  createThread : HANDLE
  threadId : DWORD
  lastError : DWORD
  deriving DecidableEq, Repr

/-- What `init()` leaves behind: the object, the `InitStruct` handed to the new thread
(`none` once it was deleted), the operations issued and the exception rethrown. -/
structure InitOutcome where
  obj : dllthread
  handedOver : Option InitStruct
  trace : List OsCall
  thrown : Option StdException
  deriving DecidableEq, Repr

/-- The `catch (...)` block of `dllthread::init`, entered with the object `self`, the
`InitStruct` as it is then, the operations `pre` issued so far and the exception in
flight, which `throw;` rethrows. -/
def dllthread.initCatch (self : dllthread) (p : Ptr) (init : InitStruct) (pre : List OsCall)
    (e : StdException) : InitOutcome :=
  { obj := self
    handedOver := none
    trace := pre ++ [.CloseHandle self.m_thread, .CloseHandle self.m_threadStarted,
                     .CloseHandle self.m_threadEnded] ++ deleteInit p init
    thrown := some e }

/-- The body of the first `if` of `dllthread::init`, taken when either `CreateEvent`
returned `nullptr`: both event members are overwritten with the sentinel, then the
exception is thrown into the `catch (...)` block. -/
def dllthread.createEventFailed (self : dllthread) (p : Ptr) (init : InitStruct)
    (pre : List OsCall) : InitOutcome :=
  dllthread.initCatch
    { self with m_threadStarted := INVALID_HANDLE_VALUE, m_threadEnded := INVALID_HANDLE_VALUE }
    p init pre (.system_error 0 "Can't create event")

/-- Member `dllthread::init`, called on the object `self` with the closure `fn`. -/
def dllthread.init (self : dllthread) (fn : Nat) (env : InitEnv) : InitOutcome :=
  let p := env.newPtr
  let init0 : InitStruct :=
    { m_fn := fn, m_threadStarted := INVALID_HANDLE_VALUE,
      m_threadEnded := INVALID_HANDLE_VALUE, m_threadCancelled := false }
  let s0 : dllthread := { self with m_initstruct := p }
  let s1 : dllthread := { s0 with m_threadStarted := env.createEvent1 }
  let t1 : List OsCall := [.NewInitStruct p, .CreateEvent false false]
  if env.createEvent1 = nullptr then
    s1.createEventFailed p init0 t1
  else
    let s2 : dllthread := { s1 with m_threadEnded := env.createEvent2 }
    let t2 : List OsCall := t1 ++ [.CreateEvent false false]
    if env.createEvent2 = nullptr then
      s2.createEventFailed p init0 t2
    else
      let t3 : List OsCall := t2 ++ [.DuplicateHandle s2.m_threadStarted]
      match env.duplicate1 with
      | none => s2.initCatch p init0 t3 (.system_error 0 "DuplicateHandle failed")
      | some d1 =>
        let init1 : InitStruct := { init0 with m_threadStarted := d1 }
        let t4 : List OsCall := t3 ++ [.DuplicateHandle s2.m_threadEnded]
        match env.duplicate2 with
        | none => s2.initCatch p init1 t4 (.system_error 0 "DuplicateHandle failed")
        | some d2 =>
          let init2 : InitStruct := { init1 with m_threadEnded := d2 }
          let t5 : List OsCall := t4 ++ [.CreateThread p]
          if env.createThread = nullptr then
            let s3 : dllthread := { s2 with m_thread := INVALID_HANDLE_VALUE }
            s3.initCatch p init2 t5 (.system_error 0 "Can't start new thread")
          else
            { obj := { s2 with m_thread := env.createThread, m_id := env.threadId }
              handedOver := some init2
              trace := t5
              thrown := none }

/-! ## Reading a trace -/

/-- Handle closes. -/
def OsCall.isClose : OsCall → Bool
  | .CloseHandle _ => true
  | _ => false

/-- Waits, bounded or not. -/
def OsCall.isWait : OsCall → Bool
  | .WaitForMultipleObjects _ _ _ => true
  | .WaitForSingleObject _ _ => true
  | _ => false

/-- Waits whose timeout is `INFINITE`. -/
def OsCall.isUnboundedWait : OsCall → Bool
  | .WaitForMultipleObjects _ _ ms => ms = INFINITE
  | .WaitForSingleObject _ ms => ms = INFINITE
  | _ => false

/-- The operations of the forced path: the write of `m_threadCancelled`, `SuspendThread`
and `TerminateThread`. -/
def OsCall.isForced : OsCall → Bool
  | .StoreCancelled _ _ => true
  | .SuspendThread _ => true
  | .TerminateThread _ _ => true
  | _ => false

/-- Event raises. -/
def OsCall.isSetEvent : OsCall → Bool
  | .SetEvent _ => true
  | _ => false

/-- Calls of the work closure. -/
def OsCall.isInvoke : OsCall → Bool
  | .InvokeFn _ => true
  | _ => false

/-- Releases of the `InitStruct` storage. -/
def OsCall.isFree : OsCall → Bool
  | .FreeInitStruct _ => true
  | _ => false

/-- A live object, as a successful `init()` leaves it. -/
def liveExample : dllthread :=
  { m_thread := 0x1A0, m_threadStarted := 0x1A4, m_threadEnded := 0x1A8,
    m_id := 4242, m_initstruct := 0x7000 }

/-- An empty object: every handle is the sentinel and the id is zero. -/
def emptyExample : dllthread :=
  { m_thread := INVALID_HANDLE_VALUE, m_threadStarted := INVALID_HANDLE_VALUE,
    m_threadEnded := INVALID_HANDLE_VALUE, m_id := 0, m_initstruct := 0 }

/-! ## Joiner and worker, interleaved

The joiner executes `join()` on the timeout branch and the worker executes
`threadstart`, one operation at a time, in an order chosen by a schedule.  The
operations of each thread are those of the functions above. -/

/-- The two threads. -/
inductive Tid where
  | joiner
  | worker
  deriving DecidableEq, Repr

/-- Where the worker is inside `threadstart`: before its first statement, after
`SetEvent(init->m_threadStarted)` and before the read of `m_threadCancelled`, or after
that read with the statements `todo` left to execute. -/
inductive WorkerPhase where
  | entry
  | check
  | rest (todo : List OsCall)
  deriving DecidableEq, Repr

/-- Where the joiner is inside `join()`: blocked in `WaitForMultipleObjects`, or past it
with the operations `todo` left to issue. -/
inductive JoinerPhase where
  | waiting
  | rest (todo : List OsCall)
  deriving DecidableEq, Repr

/-- The object being joined, the id of the joining thread, and the `InitStruct` that
`init()` handed to the worker (stored at `self.m_initstruct`). -/
structure Scenario where
  self : dllthread
  caller : DWORD
  init : InitStruct
  deriving DecidableEq, Repr

/-- The shared state of one run: the flag `m_threadCancelled`, the two events, whether
the worker was suspended or terminated, the position of each thread, and every
operation executed so far, oldest first, with the thread that executed it. -/
structure Race where
  cancelled : Bool
  started : Bool
  ended : Bool
  halted : Bool
  joiner : JoinerPhase
  worker : WorkerPhase
  log : List (Tid × OsCall)
  deriving DecidableEq, Repr

/-- The operations `join()` issues when its first wait returns `WAIT_TIMEOUT`. -/
def Scenario.joinerOps (sc : Scenario) : List OsCall :=
  (sc.self.join
    { currentThreadId := sc.caller, waitResult := WAIT_TIMEOUT, pollResult := 0 }).trace

/-- The operations `threadstart` issues when the read of `m_threadCancelled` gives `flag`. -/
def Scenario.workerOps (sc : Scenario) (flag : Bool) : List OsCall :=
  (dllthread.threadstart sc.self.m_initstruct
    { sc.init with m_threadCancelled := flag }).1

/-- The state right after `init()` returned: flag as in the `InitStruct`, no event
raised, the joiner entering its wait, the worker not yet at its first statement. -/
def Scenario.start (sc : Scenario) : Race :=
  { cancelled := sc.init.m_threadCancelled, started := false, ended := false,
    halted := false, joiner := .waiting, worker := .entry, log := [] }

/-- The effect of one joiner operation on the shared state. -/
def Race.joinerEffect (s : Race) : OsCall → Race
  | .StoreCancelled _ v => { s with cancelled := v }
  | .SuspendThread _ => { s with halted := true }
  | .TerminateThread _ _ => { s with halted := true }
  | _ => s

/-- The effect of one worker operation issued after the read of the flag; the only
`SetEvent` left then is the one on `m_threadEnded`. -/
def Race.workerEffect (s : Race) : OsCall → Race
  | .SetEvent _ => { s with ended := true }
  | _ => s

/-- One step of the joiner.  The wait returns `WAIT_TIMEOUT` only while neither event is
raised; once an event is raised the joiner of this model stays in the wait. -/
def Race.stepJoiner (sc : Scenario) (s : Race) : Race :=
  match s.joiner with
  | .waiting =>
    match sc.joinerOps with
    | [] => { s with joiner := .rest [] }
    | op :: ops =>
      if s.started || s.ended then s
      else { s with joiner := .rest ops, log := s.log ++ [(.joiner, op)] }
  | .rest [] => s
  | .rest (op :: ops) =>
    { s.joinerEffect op with joiner := .rest ops, log := s.log ++ [(.joiner, op)] }

/-- One step of the worker; a suspended or terminated worker does not move. -/
def Race.stepWorker (sc : Scenario) (s : Race) : Race :=
  if s.halted then s
  else
    match s.worker with
    | .entry =>
      { s with started := true, worker := .check,
               log := s.log ++ [(.worker, .SetEvent sc.init.m_threadStarted)] }
    | .check => { s with worker := .rest (sc.workerOps s.cancelled).tail }
    | .rest [] => s
    | .rest (op :: ops) =>
      { s.workerEffect op with worker := .rest ops, log := s.log ++ [(.worker, op)] }

/-- One step of the thread the schedule picks. -/
def Race.step (sc : Scenario) (s : Race) : Tid → Race
  | .joiner => s.stepJoiner sc
  | .worker => s.stepWorker sc

/-- The run of a schedule from a state. -/
def Race.run (sc : Scenario) (s : Race) (schedule : List Tid) : Race :=
  schedule.foldl (Race.step sc) s

/-- The operations one thread executed, in order. -/
def Race.opsOf (s : Race) (t : Tid) : List OsCall :=
  (s.log.filter (fun e => e.1 = t)).map Prod.snd

/-- Whether the work closure was executed. -/
def Race.closureRan (s : Race) : Bool :=
  s.log.any (fun e => e.2.isInvoke)

/-- Whether the joiner left its wait. -/
def Race.waitReturned (s : Race) : Bool :=
  s.joiner != .waiting

/-- Whether the worker has not read `m_threadCancelled` yet. -/
def WorkerPhase.beforeRead : WorkerPhase → Bool
  | .entry => true
  | .check => true
  | .rest _ => false

/-- A scenario as `init()` leaves it: `liveExample` joined from thread 7, with the
duplicated event handles in the `InitStruct` and the flag clear. -/
def raceExample : Scenario :=
  { self := liveExample, caller := 7,
    init := { m_fn := 1, m_threadStarted := 0x1B4, m_threadEnded := 0x1B8,
              m_threadCancelled := false } }

/-- Operations that neither call the closure nor clear the flag. -/
def OsCall.keepsCancel : OsCall → Bool
  | .InvokeFn _ => false
  | .StoreCancelled _ v => v
  | _ => true

/-- What the joiner has executed and what it has left make up the operations of
`join()` on the timeout branch. -/
def Race.joinerInv (sc : Scenario) (s : Race) : Prop :=
  match s.joiner with
  | .waiting => s.opsOf .joiner = []
  | .rest todo => s.opsOf .joiner ++ todo = sc.joinerOps

/-- What the worker has executed while it has not read the flag. -/
def Race.workerInvBefore (sc : Scenario) (s : Race) : Prop :=
  match s.worker with
  | .entry => s.opsOf .worker = []
  | .check => s.opsOf .worker = [.SetEvent sc.init.m_threadStarted]
  | .rest _ => True

/-- What the worker has executed and what it has left make up the operations of
`threadstart` with the flag read as set. -/
def Race.workerInvCancelled (sc : Scenario) (s : Race) : Prop :=
  match s.worker with
  | .entry => s.opsOf .worker = []
  | .check => s.opsOf .worker = [.SetEvent sc.init.m_threadStarted]
  | .rest todo => s.opsOf .worker ++ todo = sc.workerOps true

/-- What holds in every state a schedule can reach from the start. -/
def Race.reachInv (sc : Scenario) (s : Race) : Prop :=
  s.joinerInv sc ∧ s.workerInvBefore sc ∧ (s.worker.beforeRead = true → s.closureRan = false)

/-- What holds from the moment the flag is set while the worker has not read it. -/
def Race.cancelInv (sc : Scenario) (s : Race) : Prop :=
  s.cancelled = true ∧ s.joinerInv sc ∧ s.workerInvCancelled sc ∧ s.closureRan = false

/-- A schedule in which the worker is dispatched right after the joiner's wait timed
out: it raises the started event, reads the flag and calls the closure before the joiner
writes the flag. -/
def racingSchedule : List Tid :=
  [.joiner, .worker, .worker, .worker, .joiner, .joiner, .joiner, .joiner, .joiner,
   .joiner, .joiner]

/-! ## Shared lemmas -/

theorem joinable_reset (self : dllthread) : self.reset.joinable = false := by
  simp [dllthread.joinable, dllthread.reset]

theorem detach_of_joinable (self : dllthread) (h : self.joinable = true) :
    self.detach =
      { obj := self.reset,
        trace := [.CloseHandle self.m_thread, .CloseHandle self.m_threadStarted,
                  .CloseHandle self.m_threadEnded],
        thrown := none } := by
  simp [dllthread.detach, h]

theorem join_of_live (self : dllthread) (env : JoinEnv) (h : self.joinable = true)
    (hc : env.currentThreadId ≠ self.m_id) :
    self.join env =
      { obj := self.reset,
        trace := .WaitForMultipleObjects [self.m_threadStarted, self.m_threadEnded] false 3000
          :: self.joinSwitch env
          ++ [.CloseHandle self.m_thread, .CloseHandle self.m_threadStarted,
              .CloseHandle self.m_threadEnded],
        thrown := none } := by
  simp [dllthread.join, h, hc, detach_of_joinable]

theorem join_of_not_joinable (self : dllthread) (env : JoinEnv) (h : self.joinable = false) :
    self.join env =
      { obj := self, trace := [],
        thrown := some (.invalid_argument "This thread is not joinable") } := by
  simp [dllthread.join, h]

theorem join_on_worker_thread (self : dllthread) (env : JoinEnv) (h : self.joinable = true)
    (hc : env.currentThreadId = self.m_id) :
    self.join env =
      { obj := self, trace := [],
        thrown := some (.runtime_error "Can't join. Possible deadlock.") } := by
  simp [dllthread.join, h, hc]

theorem detach_of_not_joinable (self : dllthread) (h : self.joinable = false) :
    self.detach =
      { obj := self, trace := [],
        thrown := some (.runtime_error "This thread is null or has been detached already") } := by
  simp [dllthread.detach, h]

theorem joinSwitch_filter_isClose (self : dllthread) (env : JoinEnv) :
    (self.joinSwitch env).filter OsCall.isClose = [] := by
  unfold dllthread.joinSwitch
  split_ifs <;> simp [OsCall.isClose]

/-! ## join(): the two failures -/

/-- C1: `join()` throws the not-joinable error (`std::invalid_argument`) exactly when the
object is not joinable, throws the self-join error (`std::runtime_error`) exactly when the
object is joinable and the calling thread id equals `m_id`, throws nothing exactly when
the object is joinable and the caller is another thread, and whenever it throws it has
issued no operation at all and left every data member as it was. -/
theorem join_failure_cases (self : dllthread) (env : JoinEnv) :
    ((self.join env).thrown = some (.invalid_argument "This thread is not joinable")
        ↔ self.joinable = false) ∧
    ((self.join env).thrown = some (.runtime_error "Can't join. Possible deadlock.")
        ↔ (self.joinable = true ∧ env.currentThreadId = self.m_id)) ∧
    ((self.join env).thrown = none
        ↔ (self.joinable = true ∧ env.currentThreadId ≠ self.m_id)) ∧
    ((self.join env).thrown = none
        ∨ ((self.join env).trace = [] ∧ (self.join env).obj = self)) := by
  cases h : self.joinable
  · simp [dllthread.join, h]
  · by_cases hc : env.currentThreadId = self.m_id
    · simp [dllthread.join, h, hc]
    · simp [join_of_live self env h hc, hc]

/-! ## join(): the successful paths -/

/-- C3: a joinable object joined from a thread other than the worker: whatever the first
wait and the poll return, `join()` throws nothing, the handle closes it issues are exactly
one of `m_thread`, one of `m_threadStarted` and one of `m_threadEnded`, they come last, and
the object ends with the three handles equal to `INVALID_HANDLE_VALUE` and `m_id` equal
to 0, so `joinable()` is false. -/
theorem join_releases_and_empties (self : dllthread) (env : JoinEnv)
    (hlive : self.joinable = true) (hcaller : env.currentThreadId ≠ self.m_id) :
    (self.join env).thrown = none ∧
    (self.join env).trace.filter OsCall.isClose =
      [.CloseHandle self.m_thread, .CloseHandle self.m_threadStarted,
       .CloseHandle self.m_threadEnded] ∧
    (∃ pre, (self.join env).trace =
      pre ++ [.CloseHandle self.m_thread, .CloseHandle self.m_threadStarted,
              .CloseHandle self.m_threadEnded] ∧ pre.filter OsCall.isClose = []) ∧
    (self.join env).obj.m_thread = INVALID_HANDLE_VALUE ∧
    (self.join env).obj.m_threadStarted = INVALID_HANDLE_VALUE ∧
    (self.join env).obj.m_threadEnded = INVALID_HANDLE_VALUE ∧
    (self.join env).obj.m_id = 0 ∧
    (self.join env).obj.joinable = false := by
  rw [join_of_live self env hlive hcaller]
  refine ⟨rfl, ?_,
    ⟨.WaitForMultipleObjects [self.m_threadStarted, self.m_threadEnded] false 3000
        :: self.joinSwitch env, ?_, ?_⟩,
    rfl, rfl, rfl, rfl, joinable_reset self⟩
  · simp [List.filter_cons, List.filter_append, joinSwitch_filter_isClose, OsCall.isClose]
  · simp
  · simp [List.filter_cons, joinSwitch_filter_isClose, OsCall.isClose]

theorem join_releases_and_empties_witness :
    liveExample.joinable = true ∧
    (liveExample.join { currentThreadId := 7, waitResult := WAIT_FAILED, pollResult := 0 }).obj.m_id
      = 0 :=
  ⟨by decide,
   (join_releases_and_empties liveExample
      { currentThreadId := 7, waitResult := WAIT_FAILED, pollResult := 0 }
      (by decide) (by decide)).2.2.2.2.2.2.1⟩

theorem joinSwitch_filter_isForced (self : dllthread) (env : JoinEnv) :
    (self.joinSwitch env).filter OsCall.isForced =
      if env.waitResult = WAIT_OBJECT_0 ∨ env.waitResult = WAIT_OBJECT_0 + 1 then []
      else [.StoreCancelled self.m_initstruct true, .SuspendThread self.m_thread,
            .TerminateThread self.m_thread 0] := by
  unfold dllthread.joinSwitch
  split_ifs <;> simp_all [OsCall.isForced]

theorem join_filter_isForced (self : dllthread) (env : JoinEnv)
    (hlive : self.joinable = true) (hcaller : env.currentThreadId ≠ self.m_id) :
    (self.join env).trace.filter OsCall.isForced =
      if env.waitResult = WAIT_OBJECT_0 ∨ env.waitResult = WAIT_OBJECT_0 + 1 then []
      else [.StoreCancelled self.m_initstruct true, .SuspendThread self.m_thread,
            .TerminateThread self.m_thread 0] := by
  rw [join_of_live self env hlive hcaller]
  simp [List.filter_cons, List.filter_append, joinSwitch_filter_isForced, OsCall.isForced]

/-- C4, as stated, fails: it is not true that the forced path (write of the cancel flag,
suspend, terminate) is taken if and only if the first wait returned `WAIT_TIMEOUT`.  On
`liveExample`, joined from another thread, a wait that returns `WAIT_FAILED` takes it. -/
theorem forced_path_not_only_on_timeout :
    ¬ (∀ (self : dllthread) (env : JoinEnv), self.joinable = true →
        env.currentThreadId ≠ self.m_id →
        ((self.join env).trace.filter OsCall.isForced ≠ [] ↔ env.waitResult = WAIT_TIMEOUT)) := by
  intro h
  have h1 := h liveExample { currentThreadId := 7, waitResult := WAIT_FAILED, pollResult := 0 }
    (by decide) (by decide)
  rw [join_filter_isForced _ _ (by decide) (by decide)] at h1
  simp [WAIT_FAILED, WAIT_TIMEOUT, WAIT_OBJECT_0] at h1

/-- C4, amended: for a joinable object joined from another thread, the forced path is
taken exactly when the first wait returned neither `WAIT_OBJECT_0` (started) nor
`WAIT_OBJECT_0 + 1` (finished), which covers `WAIT_TIMEOUT` and also `WAIT_FAILED`; then
the cancel flag is written, the thread suspended and terminated, in this order and once
each.  For the two signal outcomes none of these three operations is issued. -/
theorem forced_path_iff_no_signal (self : dllthread) (env : JoinEnv)
    (hlive : self.joinable = true) (hcaller : env.currentThreadId ≠ self.m_id) :
    ((self.join env).trace.filter OsCall.isForced =
        [.StoreCancelled self.m_initstruct true, .SuspendThread self.m_thread,
         .TerminateThread self.m_thread 0]
      ↔ (env.waitResult ≠ WAIT_OBJECT_0 ∧ env.waitResult ≠ WAIT_OBJECT_0 + 1)) ∧
    ((self.join env).trace.filter OsCall.isForced = []
      ↔ (env.waitResult = WAIT_OBJECT_0 ∨ env.waitResult = WAIT_OBJECT_0 + 1)) ∧
    (WAIT_TIMEOUT ≠ WAIT_OBJECT_0 ∧ WAIT_TIMEOUT ≠ WAIT_OBJECT_0 + 1) ∧
    (WAIT_FAILED ≠ WAIT_OBJECT_0 ∧ WAIT_FAILED ≠ WAIT_OBJECT_0 + 1) := by
  rw [join_filter_isForced self env hlive hcaller]
  refine ⟨?_, ?_, by decide, by decide⟩
  · split_ifs with h
    · simp only [List.nil_eq, reduceCtorEq, false_iff, not_and_or, not_not]
      exact h
    · simp only [true_iff]
      exact not_or.mp h
  · split_ifs with h
    · simp [h]
    · simp only [reduceCtorEq, false_iff]
      exact h

theorem forced_path_iff_no_signal_witness :
    liveExample.joinable = true ∧
    ((liveExample.join { currentThreadId := 7, waitResult := WAIT_TIMEOUT, pollResult := 0 }).trace.filter
        OsCall.isForced = [] ↔ (WAIT_TIMEOUT = WAIT_OBJECT_0 ∨ WAIT_TIMEOUT = WAIT_OBJECT_0 + 1)) :=
  ⟨by decide,
   (forced_path_iff_no_signal liveExample
      { currentThreadId := 7, waitResult := WAIT_TIMEOUT, pollResult := 0 }
      (by decide) (by decide)).2.1⟩

/-! ## join(): how long it may block -/

theorem joinSwitch_filter_isWait (self : dllthread) (env : JoinEnv) :
    (self.joinSwitch env).filter OsCall.isWait =
      if env.waitResult = WAIT_OBJECT_0 then
        .WaitForSingleObject self.m_thread 0 ::
          (if env.pollResult = WAIT_TIMEOUT then
            [.WaitForSingleObject self.m_threadEnded INFINITE] else [])
      else [] := by
  unfold dllthread.joinSwitch
  split_ifs <;> simp_all [OsCall.isWait]

theorem joinSwitch_filter_isUnboundedWait (self : dllthread) (env : JoinEnv) :
    (self.joinSwitch env).filter OsCall.isUnboundedWait =
      if env.waitResult = WAIT_OBJECT_0 ∧ env.pollResult = WAIT_TIMEOUT then
        [.WaitForSingleObject self.m_threadEnded INFINITE]
      else [] := by
  unfold dllthread.joinSwitch
  split_ifs <;> simp_all [OsCall.isUnboundedWait, INFINITE]

/-- C5: a joinable object joined from another thread: the first operation of `join()` is
the wait on the two events with the finite timeout 3000; the only wait with timeout
`INFINITE` that `join()` can issue is the one on `m_threadEnded`, and it is issued if and
only if the first wait returned `WAIT_OBJECT_0` (started) and the zero-timeout poll of
`m_thread` returned `WAIT_TIMEOUT` (not exited).  When the first wait returns anything
else no further wait follows; when the poll returns anything else only the poll does. -/
theorem join_wait_bounds (self : dllthread) (env : JoinEnv)
    (hlive : self.joinable = true) (hcaller : env.currentThreadId ≠ self.m_id) :
    (self.join env).trace.head? =
      some (.WaitForMultipleObjects [self.m_threadStarted, self.m_threadEnded] false 3000) ∧
    3000 < INFINITE ∧
    (self.join env).trace.filter OsCall.isUnboundedWait =
      (if env.waitResult = WAIT_OBJECT_0 ∧ env.pollResult = WAIT_TIMEOUT then
        [.WaitForSingleObject self.m_threadEnded INFINITE]
      else []) ∧
    ((∃ c ∈ (self.join env).trace, c.isUnboundedWait = true)
      ↔ (env.waitResult = WAIT_OBJECT_0 ∧ env.pollResult = WAIT_TIMEOUT)) ∧
    (self.join env).trace.filter OsCall.isWait =
      .WaitForMultipleObjects [self.m_threadStarted, self.m_threadEnded] false 3000 ::
        (if env.waitResult = WAIT_OBJECT_0 then
          .WaitForSingleObject self.m_thread 0 ::
            (if env.pollResult = WAIT_TIMEOUT then
              [.WaitForSingleObject self.m_threadEnded INFINITE] else [])
        else []) := by
  have hU : (self.join env).trace.filter OsCall.isUnboundedWait =
      (if env.waitResult = WAIT_OBJECT_0 ∧ env.pollResult = WAIT_TIMEOUT then
        [.WaitForSingleObject self.m_threadEnded INFINITE]
      else []) := by
    rw [join_of_live self env hlive hcaller]
    simp [List.filter_cons, List.filter_append, joinSwitch_filter_isUnboundedWait,
      OsCall.isUnboundedWait, INFINITE]
  refine ⟨?_, by decide, hU, ?_, ?_⟩
  · rw [join_of_live self env hlive hcaller]
    rfl
  · constructor
    · rintro ⟨c, hc, hcu⟩
      have hmem : c ∈ (self.join env).trace.filter OsCall.isUnboundedWait :=
        List.mem_filter.mpr ⟨hc, hcu⟩
      rw [hU] at hmem
      by_contra hne
      simp [hne] at hmem
    · intro hcond
      have hmem : OsCall.WaitForSingleObject self.m_threadEnded INFINITE
          ∈ (self.join env).trace.filter OsCall.isUnboundedWait := by
        rw [hU]; simp [hcond]
      exact ⟨_, (List.mem_filter.mp hmem).1, (List.mem_filter.mp hmem).2⟩
  · rw [join_of_live self env hlive hcaller]
    simp [List.filter_cons, List.filter_append, joinSwitch_filter_isWait, OsCall.isWait]

theorem join_wait_bounds_witness :
    liveExample.joinable = true ∧
    (liveExample.join
        { currentThreadId := 7, waitResult := WAIT_OBJECT_0, pollResult := WAIT_TIMEOUT }).trace.filter
      OsCall.isUnboundedWait = [.WaitForSingleObject liveExample.m_threadEnded INFINITE] :=
  ⟨by decide,
   (join_wait_bounds liveExample
      { currentThreadId := 7, waitResult := WAIT_OBJECT_0, pollResult := WAIT_TIMEOUT }
      (by decide) (by decide)).2.2.1⟩

/-! ## The destructor -/

/-- C9, as stated, fails: a joinable object does not always end empty when its destructor
runs.  On `liveExample`, whose `m_id` is 4242, the destructor run on thread 4242 calls
`join()`, which throws at its self-join guard; the destructor being `noexcept`,
`std::terminate` is called, no operation was issued, no handle was released and the
object is still joinable. -/
theorem destructor_on_worker_thread_stays_live :
    liveExample.joinable = true ∧
    liveExample.destructor
        { currentThreadId := 4242, waitResult := WAIT_OBJECT_0 + 1, pollResult := 0 } =
      { obj := liveExample, trace := [],
        terminateCalled := some (.runtime_error "Can't join. Possible deadlock.") } ∧
    (liveExample.destructor
        { currentThreadId := 4242, waitResult := WAIT_OBJECT_0 + 1, pollResult := 0 }).obj.joinable
      = true ∧
    (liveExample.destructor
        { currentThreadId := 4242, waitResult := WAIT_OBJECT_0 + 1, pollResult := 0 }).obj
      ≠ liveExample.reset := by
  have hl : liveExample.joinable = true := by decide
  have hj := join_on_worker_thread liveExample
    { currentThreadId := 4242, waitResult := WAIT_OBJECT_0 + 1, pollResult := 0 } hl rfl
  refine ⟨hl, ?_, ?_, ?_⟩
  · simp [dllthread.destructor, hl, hj]
  · simp [dllthread.destructor, hl, hj]
  · simp only [dllthread.destructor, hl, hj, if_true]
    decide

/-- C9, amended: on a joinable object whose destructor runs on a thread other than the
worker, the destructor issues exactly the operations of `join()` followed by those of a
destructor on the joined object (which are none), ends in the same empty object,
`join()` throws nothing and `std::terminate` is not called; its trace is the wait, the
selected case of the `switch`, then the three closes.  On an object that is not joinable
the destructor issues nothing and ends normally.  On every object and thread the trace
of the destructor is either empty or begins with the wait protocol of `join()` before
the three closes, so the closes of `detach()` never come without it. -/
theorem destructor_is_join (self : dllthread) (env env2 : JoinEnv) :
    (self.joinable = true → env.currentThreadId ≠ self.m_id →
      (self.join env).thrown = none ∧
      (self.join env).obj.destructor env2 =
        { obj := self.reset, trace := [], terminateCalled := none } ∧
      (self.destructor env).trace =
        (self.join env).trace ++ ((self.join env).obj.destructor env2).trace ∧
      (self.destructor env).obj = ((self.join env).obj.destructor env2).obj ∧
      (self.destructor env).obj = self.reset ∧
      (self.destructor env).obj.joinable = false ∧
      (self.destructor env).terminateCalled = none ∧
      (self.destructor env).trace =
        .WaitForMultipleObjects [self.m_threadStarted, self.m_threadEnded] false 3000
          :: self.joinSwitch env
          ++ [.CloseHandle self.m_thread, .CloseHandle self.m_threadStarted,
              .CloseHandle self.m_threadEnded]) ∧
    (self.joinable = false →
      self.destructor env = { obj := self, trace := [], terminateCalled := none }) ∧
    ((self.destructor env).trace = [] ∨
      (self.destructor env).trace =
        .WaitForMultipleObjects [self.m_threadStarted, self.m_threadEnded] false 3000
          :: self.joinSwitch env
          ++ [.CloseHandle self.m_thread, .CloseHandle self.m_threadStarted,
              .CloseHandle self.m_threadEnded]) := by
  refine ⟨?_, ?_, ?_⟩
  · intro hlive hcaller
    have h2 : (self.join env).obj.destructor env2 =
        { obj := self.reset, trace := [], terminateCalled := none } := by
      rw [join_of_live self env hlive hcaller]
      simp [dllthread.destructor, joinable_reset]
    have hd : self.destructor env =
        { obj := (self.join env).obj, trace := (self.join env).trace,
          terminateCalled := (self.join env).thrown } := by
      simp [dllthread.destructor, hlive]
    rw [hd, h2, join_of_live self env hlive hcaller]
    simp [joinable_reset]
  · intro hempty
    simp [dllthread.destructor, hempty]
  · cases hlive : self.joinable
    · left
      simp [dllthread.destructor, hlive]
    · by_cases hcaller : env.currentThreadId = self.m_id
      · left
        simp [dllthread.destructor, hlive, join_on_worker_thread self env hlive hcaller]
      · right
        simp [dllthread.destructor, hlive, join_of_live self env hlive hcaller]

theorem destructor_is_join_witness :
    liveExample.joinable = true ∧
    (liveExample.destructor
        { currentThreadId := 7, waitResult := WAIT_TIMEOUT, pollResult := 0 }).obj
      = liveExample.reset :=
  ⟨by decide,
   ((destructor_is_join liveExample
      { currentThreadId := 7, waitResult := WAIT_TIMEOUT, pollResult := 0 }
      { currentThreadId := 7, waitResult := WAIT_TIMEOUT, pollResult := 0 }).1
      (by decide) (by decide)).2.2.2.2.1⟩

/-! ## After detach() -/

/-- C2, evaluated on the code: after a successful `detach()` of `liveExample` the object
is empty and stays so, and both further calls throw, but not the same class: `join()`
throws `std::invalid_argument` while `detach()` throws `std::runtime_error`, which is the
class `join()` uses for the self-join error. -/
theorem detach_then_calls_throw_different_classes (env : JoinEnv) :
    liveExample.detach.thrown = none ∧
    liveExample.detach.obj.joinable = false ∧
    (liveExample.detach.obj.join env) =
      { obj := liveExample.detach.obj, trace := [],
        thrown := some (.invalid_argument "This thread is not joinable") } ∧
    liveExample.detach.obj.detach =
      { obj := liveExample.detach.obj, trace := [],
        thrown := some (.runtime_error "This thread is null or has been detached already") } ∧
    (liveExample.detach.obj.join env).thrown.map StdException.cls
      ≠ liveExample.detach.obj.detach.thrown.map StdException.cls ∧
    liveExample.detach.obj.detach.thrown.map StdException.cls
      = (liveExample.join { currentThreadId := 4242, waitResult := 0, pollResult := 0 }).thrown.map
          StdException.cls := by
  have hl : liveExample.joinable = true := by decide
  have hr := joinable_reset liveExample
  rw [detach_of_joinable liveExample hl]
  simp only [join_of_not_joinable _ env hr, detach_of_not_joinable _ hr,
    join_on_worker_thread liveExample
      { currentThreadId := 4242, waitResult := 0, pollResult := 0 } hl rfl]
  simp [hr, StdException.cls]

/-! ## The worker entry routine -/

/-- C6: every run of `threadstart`, whatever the flag: the trace is `SetEvent` on
`m_threadStarted`, then the closure call if and only if the flag read is clear, then
`SetEvent` on `m_threadEnded`, then `delete init` (two closes and the release).  So the
raises are exactly two, the started one first of all operations and the ended one after
the closure call or its omission; the closure is called once when the flag is clear and
never when it is set; the `InitStruct` is released exactly once, as the last operation,
after the ended raise; and the routine returns 0. -/
theorem threadstart_protocol (param : Ptr) (init : InitStruct) :
    (dllthread.threadstart param init).1 =
      .SetEvent init.m_threadStarted ::
        ((if init.m_threadCancelled then [] else [.InvokeFn init.m_fn]) ++
          [.SetEvent init.m_threadEnded, .CloseHandle init.m_threadStarted,
           .CloseHandle init.m_threadEnded, .FreeInitStruct param]) ∧
    (dllthread.threadstart param init).1.head? = some (.SetEvent init.m_threadStarted) ∧
    (dllthread.threadstart param init).1.filter OsCall.isSetEvent =
      [.SetEvent init.m_threadStarted, .SetEvent init.m_threadEnded] ∧
    (dllthread.threadstart param init).1.filter OsCall.isInvoke =
      (if init.m_threadCancelled then [] else [.InvokeFn init.m_fn]) ∧
    (dllthread.threadstart param init).1.filter OsCall.isFree = [.FreeInitStruct param] ∧
    (dllthread.threadstart param init).1.getLast? = some (.FreeInitStruct param) ∧
    (∃ before,
      (dllthread.threadstart param init).1 =
        before ++ [.SetEvent init.m_threadEnded, .CloseHandle init.m_threadStarted,
                   .CloseHandle init.m_threadEnded, .FreeInitStruct param] ∧
      before.filter OsCall.isInvoke = (dllthread.threadstart param init).1.filter OsCall.isInvoke) ∧
    (dllthread.threadstart param init).2 = 0 := by
  cases hc : init.m_threadCancelled
  · refine ⟨?_, ?_, ?_, ?_, ?_, ?_,
      ⟨[.SetEvent init.m_threadStarted, .InvokeFn init.m_fn], ?_, ?_⟩, ?_⟩ <;>
    simp [dllthread.threadstart, deleteInit, InitStruct.destructor, hc, OsCall.isSetEvent,
      OsCall.isInvoke, OsCall.isFree]
  · refine ⟨?_, ?_, ?_, ?_, ?_, ?_,
      ⟨[.SetEvent init.m_threadStarted], ?_, ?_⟩, ?_⟩ <;>
    simp [dllthread.threadstart, deleteInit, InitStruct.destructor, hc, OsCall.isSetEvent,
      OsCall.isInvoke, OsCall.isFree]

/-! ## Construction failures -/

/-- C7, evaluated on the code: `init()` on `emptyExample` when the first `CreateEvent`
returns the handle `0x1A4` and the second returns `nullptr`.  The `if` body overwrites
`m_threadStarted` with the sentinel before the `catch` block closes it, so every close
issued is of `INVALID_HANDLE_VALUE` and the created handle `0x1A4` is never closed.  When
instead both events are created and the first `DuplicateHandle` fails, the same `catch`
block does close both created handles. -/
theorem init_second_event_failure_leaks_first :
    (emptyExample.init 1
        { newPtr := 0x7000, createEvent1 := 0x1A4, createEvent2 := nullptr,
          duplicate1 := none, duplicate2 := none, createThread := nullptr,
          threadId := 0, lastError := ERROR_NOT_ENOUGH_MEMORY }).trace =
      [.NewInitStruct 0x7000, .CreateEvent false false, .CreateEvent false false,
       .CloseHandle INVALID_HANDLE_VALUE, .CloseHandle INVALID_HANDLE_VALUE,
       .CloseHandle INVALID_HANDLE_VALUE, .CloseHandle INVALID_HANDLE_VALUE,
       .CloseHandle INVALID_HANDLE_VALUE, .FreeInitStruct 0x7000] ∧
    OsCall.CloseHandle 0x1A4 ∉
      (emptyExample.init 1
        { newPtr := 0x7000, createEvent1 := 0x1A4, createEvent2 := nullptr,
          duplicate1 := none, duplicate2 := none, createThread := nullptr,
          threadId := 0, lastError := ERROR_NOT_ENOUGH_MEMORY }).trace ∧
    (emptyExample.init 1
        { newPtr := 0x7000, createEvent1 := 0x1A4, createEvent2 := nullptr,
          duplicate1 := none, duplicate2 := none, createThread := nullptr,
          threadId := 0, lastError := ERROR_NOT_ENOUGH_MEMORY }).thrown =
      some (.system_error 0 "Can't create event") ∧
    (emptyExample.init 1
        { newPtr := 0x7000, createEvent1 := 0x1A4, createEvent2 := 0x1A8,
          duplicate1 := none, duplicate2 := none, createThread := nullptr,
          threadId := 0, lastError := ERROR_NOT_ENOUGH_MEMORY }).trace.filter OsCall.isClose =
      [.CloseHandle INVALID_HANDLE_VALUE, .CloseHandle 0x1A4, .CloseHandle 0x1A8,
       .CloseHandle INVALID_HANDLE_VALUE, .CloseHandle INVALID_HANDLE_VALUE] := by
  refine ⟨?_, ?_, ?_, ?_⟩ <;>
    simp [dllthread.init, dllthread.createEventFailed, dllthread.initCatch, deleteInit,
      InitStruct.destructor, emptyExample, nullptr, INVALID_HANDLE_VALUE, OsCall.isClose]

/-- C8, evaluated on the code: whatever fails in `init()`, the `std::system_error` that
leaves it carries the code 0, not the code the operating system reported.  With the first
`CreateEvent` failing and `GetLastError()` reporting `ERROR_NOT_ENOUGH_MEMORY` (8), the
error thrown is `system_error(0, "Can't create event")`. -/
theorem init_error_code_is_zero :
    (∀ (self : dllthread) (fn : Nat) (env : InitEnv),
      (self.init fn env).thrown = none ∨
      ∃ what, (self.init fn env).thrown = some (.system_error 0 what)) ∧
    (emptyExample.init 1
        { newPtr := 0x7000, createEvent1 := nullptr, createEvent2 := nullptr,
          duplicate1 := none, duplicate2 := none, createThread := nullptr,
          threadId := 0, lastError := ERROR_NOT_ENOUGH_MEMORY }).thrown =
      some (.system_error 0 "Can't create event") ∧
    ((0 : Int) ≠ (ERROR_NOT_ENOUGH_MEMORY : Int)) := by
  refine ⟨?_, ?_, by decide⟩
  · intro self fn env
    by_cases h1 : env.createEvent1 = nullptr
    · simp [dllthread.init, h1, dllthread.createEventFailed, dllthread.initCatch]
    · by_cases h2 : env.createEvent2 = nullptr
      · simp [dllthread.init, h1, h2, dllthread.createEventFailed, dllthread.initCatch]
      · cases hd1 : env.duplicate1 with
        | none => simp [dllthread.init, h1, h2, hd1, dllthread.initCatch]
        | some d1 =>
          cases hd2 : env.duplicate2 with
          | none => simp [dllthread.init, h1, h2, hd1, hd2, dllthread.initCatch]
          | some d2 =>
            by_cases h3 : env.createThread = nullptr <;>
              simp [dllthread.init, h1, h2, hd1, hd2, h3, dllthread.initCatch]
  · simp [dllthread.init, dllthread.createEventFailed, dllthread.initCatch, nullptr]

/-! ## The timeout branch racing with the worker -/

theorem joinerOps_of_live (sc : Scenario) (hlive : sc.self.joinable = true)
    (hcaller : sc.caller ≠ sc.self.m_id) :
    sc.joinerOps =
      [.WaitForMultipleObjects [sc.self.m_threadStarted, sc.self.m_threadEnded] false 3000,
       .StoreCancelled sc.self.m_initstruct true, .MemoryBarrier,
       .SuspendThread sc.self.m_thread, .TerminateThread sc.self.m_thread 0,
       .CloseHandle sc.self.m_thread, .CloseHandle sc.self.m_threadStarted,
       .CloseHandle sc.self.m_threadEnded] := by
  unfold Scenario.joinerOps
  rw [join_of_live _ _ hlive hcaller]
  simp [dllthread.joinSwitch, WAIT_TIMEOUT, WAIT_OBJECT_0]

theorem joinerOps_keepsCancel (sc : Scenario) :
    ∀ op ∈ sc.joinerOps, op.keepsCancel = true := by
  cases hlive : sc.self.joinable
  · simp [Scenario.joinerOps, join_of_not_joinable _ _ hlive]
  · by_cases hcaller : sc.caller = sc.self.m_id
    · simp [Scenario.joinerOps, dllthread.join, hlive, hcaller]
    · rw [joinerOps_of_live sc hlive hcaller]
      simp [OsCall.keepsCancel]

theorem keepsCancel_not_invoke (op : OsCall) (h : op.keepsCancel = true) :
    op.isInvoke = false := by
  cases op <;> simp_all [OsCall.keepsCancel, OsCall.isInvoke]

theorem workerOps_cancelled (sc : Scenario) :
    sc.workerOps true =
      [.SetEvent sc.init.m_threadStarted, .SetEvent sc.init.m_threadEnded,
       .CloseHandle sc.init.m_threadStarted, .CloseHandle sc.init.m_threadEnded,
       .FreeInitStruct sc.self.m_initstruct] := by
  simp [Scenario.workerOps, dllthread.threadstart, deleteInit, InitStruct.destructor]

theorem workerOps_cancelled_not_invoke (sc : Scenario) :
    ∀ op ∈ sc.workerOps true, op.isInvoke = false := by
  rw [workerOps_cancelled]
  simp [OsCall.isInvoke]

theorem run_append (sc : Scenario) (s : Race) (a b : List Tid) :
    Race.run sc s (a ++ b) = Race.run sc (Race.run sc s a) b := by
  simp [Race.run, List.foldl_append]

theorem joinerEffect_fields (s : Race) (op : OsCall) :
    (s.joinerEffect op).log = s.log ∧ (s.joinerEffect op).joiner = s.joiner ∧
    (s.joinerEffect op).worker = s.worker := by
  cases op <;> simp [Race.joinerEffect]

theorem joinerEffect_cancelled (s : Race) (op : OsCall) (hc : s.cancelled = true)
    (hk : op.keepsCancel = true) : (s.joinerEffect op).cancelled = true := by
  cases op <;> simp_all [Race.joinerEffect, OsCall.keepsCancel]

theorem workerEffect_fields (s : Race) (op : OsCall) :
    (s.workerEffect op).log = s.log ∧ (s.workerEffect op).joiner = s.joiner ∧
    (s.workerEffect op).worker = s.worker ∧ (s.workerEffect op).cancelled = s.cancelled := by
  cases op <;> simp [Race.workerEffect]

theorem stepJoiner_cancelInv (sc : Scenario) (s : Race) (h : s.cancelInv sc) :
    (s.stepJoiner sc).cancelInv sc := by
  obtain ⟨hc, hj, hw, hr⟩ := h
  have hkeep := joinerOps_keepsCancel sc
  rcases s with ⟨c, st, en, hl, j, w, log⟩
  simp only at hc
  subst hc
  cases j with
  | waiting =>
    simp only [Race.joinerInv, Race.opsOf] at hj
    cases hops : sc.joinerOps with
    | nil =>
      refine ⟨?_, ?_, ?_, ?_⟩
      · simp [Race.stepJoiner, hops]
      · simp [Race.stepJoiner, hops, Race.joinerInv, Race.opsOf, hj]
      · cases w <;>
          simpa [Race.stepJoiner, hops, Race.workerInvCancelled, Race.opsOf] using hw
      · simpa [Race.stepJoiner, hops, Race.closureRan] using hr
    | cons op ops =>
      have hop : op.isInvoke = false :=
        keepsCancel_not_invoke op (hkeep op (by simp [hops]))
      by_cases hsig : (st || en) = true
      · have : Race.stepJoiner sc ⟨true, st, en, hl, .waiting, w, log⟩
            = ⟨true, st, en, hl, .waiting, w, log⟩ := by
          simp [Race.stepJoiner, hops, hsig]
        rw [this]
        exact ⟨rfl, by simpa [Race.joinerInv, Race.opsOf] using hj, hw, hr⟩
      · have : Race.stepJoiner sc ⟨true, st, en, hl, .waiting, w, log⟩
            = ⟨true, st, en, hl, .rest ops, w, log ++ [(.joiner, op)]⟩ := by
          simp [Race.stepJoiner, hops, hsig]
        rw [this]
        refine ⟨rfl, ?_, ?_, ?_⟩
        · simp [Race.joinerInv, Race.opsOf, List.filter_append, hj, hops]
        · cases w <;>
            simpa [Race.workerInvCancelled, Race.opsOf, List.filter_append] using hw
        · simpa [Race.closureRan, List.any_append, hop] using hr
  | rest todo =>
    cases todo with
    | nil => exact ⟨rfl, hj, hw, hr⟩
    | cons op ops =>
      simp only [Race.joinerInv, Race.opsOf] at hj
      have hmem : op ∈ sc.joinerOps := by rw [← hj]; simp
      have hk := hkeep op hmem
      have hop := keepsCancel_not_invoke op hk
      have hf := joinerEffect_fields ⟨true, st, en, hl, .rest (op :: ops), w, log⟩ op
      have hcc := joinerEffect_cancelled ⟨true, st, en, hl, .rest (op :: ops), w, log⟩ op rfl hk
      refine ⟨?_, ?_, ?_, ?_⟩
      · simpa [Race.stepJoiner] using hcc
      · simp [Race.stepJoiner, Race.joinerInv, Race.opsOf, hf.1, List.filter_append, ← hj]
      · have hw2 := hf.2.2
        simp only at hw2
        cases w <;>
          simpa [Race.stepJoiner, Race.workerInvCancelled, Race.opsOf, hf.1, hw2,
            List.filter_append] using hw
      · simpa [Race.stepJoiner, Race.closureRan, hf.1, List.any_append, hop] using hr

theorem stepWorker_cancelInv (sc : Scenario) (s : Race) (h : s.cancelInv sc) :
    (s.stepWorker sc).cancelInv sc := by
  obtain ⟨hc, hj, hw, hr⟩ := h
  have hno := workerOps_cancelled_not_invoke sc
  have hwo := workerOps_cancelled sc
  rcases s with ⟨c, st, en, hl, j, w, log⟩
  simp only at hc
  subst hc
  cases hl with
  | true => simpa [Race.stepWorker] using ⟨rfl, hj, hw, hr⟩
  | false =>
    cases w with
    | entry =>
      simp only [Race.workerInvCancelled, Race.opsOf] at hw
      refine ⟨?_, ?_, ?_, ?_⟩
      · simp [Race.stepWorker]
      · cases j <;>
          simpa [Race.stepWorker, Race.joinerInv, Race.opsOf, List.filter_append] using hj
      · simp [Race.stepWorker, Race.workerInvCancelled, Race.opsOf, List.filter_append, hw]
      · simpa [Race.stepWorker, Race.closureRan, List.any_append, OsCall.isInvoke] using hr
    | check =>
      simp only [Race.workerInvCancelled, Race.opsOf] at hw
      refine ⟨?_, ?_, ?_, ?_⟩
      · simp [Race.stepWorker]
      · cases j <;> simpa [Race.stepWorker, Race.joinerInv, Race.opsOf] using hj
      · simp [Race.stepWorker, Race.workerInvCancelled, Race.opsOf, hw, hwo]
      · simpa [Race.stepWorker, Race.closureRan] using hr
    | rest todo =>
      cases todo with
      | nil => simpa [Race.stepWorker] using ⟨rfl, hj, hw, hr⟩
      | cons op ops =>
        simp only [Race.workerInvCancelled, Race.opsOf] at hw
        have hmem : op ∈ sc.workerOps true := by rw [← hw]; simp
        have hop := hno op hmem
        have hf := workerEffect_fields ⟨true, st, en, false, j, .rest (op :: ops), log⟩ op
        refine ⟨?_, ?_, ?_, ?_⟩
        · simpa [Race.stepWorker] using hf.2.2.2
        · have hj2 := hf.2.1
          simp only at hj2
          cases j <;>
            simpa [Race.stepWorker, Race.joinerInv, Race.opsOf, hf.1, hj2,
              List.filter_append] using hj
        · simp [Race.stepWorker, Race.workerInvCancelled, Race.opsOf, hf.1,
            List.filter_append, ← hw]
        · simpa [Race.stepWorker, Race.closureRan, hf.1, List.any_append, hop] using hr

theorem run_cancelInv (sc : Scenario) (schedule : List Tid) (s : Race)
    (h : s.cancelInv sc) : (Race.run sc s schedule).cancelInv sc := by
  induction schedule generalizing s with
  | nil => simpa [Race.run] using h
  | cons t rest ih =>
    have hstep : (Race.step sc s t).cancelInv sc := by
      cases t
      · exact stepJoiner_cancelInv sc s h
      · exact stepWorker_cancelInv sc s h
    simpa [Race.run] using ih _ hstep

theorem stepJoiner_reachInv (sc : Scenario) (s : Race) (h : s.reachInv sc) :
    (s.stepJoiner sc).reachInv sc := by
  obtain ⟨hj, hw, hr⟩ := h
  have hkeep := joinerOps_keepsCancel sc
  rcases s with ⟨c, st, en, hl, j, w, log⟩
  cases j with
  | waiting =>
    simp only [Race.joinerInv, Race.opsOf] at hj
    cases hops : sc.joinerOps with
    | nil =>
      refine ⟨?_, ?_, ?_⟩
      · simp [Race.stepJoiner, hops, Race.joinerInv, Race.opsOf, hj]
      · cases w
        · simpa [Race.stepJoiner, hops, Race.workerInvBefore, Race.opsOf] using hw
        · simpa [Race.stepJoiner, hops, Race.workerInvBefore, Race.opsOf] using hw
        · simp [Race.stepJoiner, hops, Race.workerInvBefore]
      · simpa [Race.stepJoiner, hops, Race.closureRan] using hr
    | cons op ops =>
      have hop : op.isInvoke = false :=
        keepsCancel_not_invoke op (hkeep op (by simp [hops]))
      by_cases hsig : (st || en) = true
      · have : Race.stepJoiner sc ⟨c, st, en, hl, .waiting, w, log⟩
            = ⟨c, st, en, hl, .waiting, w, log⟩ := by
          simp [Race.stepJoiner, hops, hsig]
        rw [this]
        exact ⟨by simpa [Race.joinerInv, Race.opsOf] using hj, hw, hr⟩
      · have : Race.stepJoiner sc ⟨c, st, en, hl, .waiting, w, log⟩
            = ⟨c, st, en, hl, .rest ops, w, log ++ [(.joiner, op)]⟩ := by
          simp [Race.stepJoiner, hops, hsig]
        rw [this]
        refine ⟨?_, ?_, ?_⟩
        · simp [Race.joinerInv, Race.opsOf, List.filter_append, hj, hops]
        · cases w <;> first | exact hw |
            simpa [Race.workerInvBefore, Race.opsOf, List.filter_append] using hw
        · simpa [Race.closureRan, List.any_append, hop] using hr
  | rest todo =>
    cases todo with
    | nil => exact ⟨hj, hw, hr⟩
    | cons op ops =>
      simp only [Race.joinerInv, Race.opsOf] at hj
      have hmem : op ∈ sc.joinerOps := by rw [← hj]; simp
      have hop := keepsCancel_not_invoke op (hkeep op hmem)
      have hf := joinerEffect_fields ⟨c, st, en, hl, .rest (op :: ops), w, log⟩ op
      have hw2 := hf.2.2
      simp only at hw2
      refine ⟨?_, ?_, ?_⟩
      · simp [Race.stepJoiner, Race.joinerInv, Race.opsOf, hf.1, List.filter_append, ← hj]
      · cases w
        · simpa [Race.stepJoiner, Race.workerInvBefore, Race.opsOf, hf.1, hw2,
            List.filter_append] using hw
        · simpa [Race.stepJoiner, Race.workerInvBefore, Race.opsOf, hf.1, hw2,
            List.filter_append] using hw
        · simp [Race.stepJoiner, Race.workerInvBefore, hw2]
      · simpa [Race.stepJoiner, Race.closureRan, hf.1, hw2, List.any_append, hop] using hr

theorem stepWorker_reachInv (sc : Scenario) (s : Race) (h : s.reachInv sc) :
    (s.stepWorker sc).reachInv sc := by
  obtain ⟨hj, hw, hr⟩ := h
  rcases s with ⟨c, st, en, hl, j, w, log⟩
  cases hl with
  | true => simpa [Race.stepWorker] using ⟨hj, hw, hr⟩
  | false =>
    cases w with
    | entry =>
      simp only [Race.workerInvBefore, Race.opsOf] at hw
      refine ⟨?_, ?_, ?_⟩
      · cases j <;>
          simpa [Race.stepWorker, Race.joinerInv, Race.opsOf, List.filter_append] using hj
      · simp [Race.stepWorker, Race.workerInvBefore, Race.opsOf, List.filter_append, hw]
      · simpa [Race.stepWorker, Race.closureRan, List.any_append, OsCall.isInvoke,
          WorkerPhase.beforeRead] using hr
    | check =>
      refine ⟨?_, ?_, ?_⟩
      · cases j <;> simpa [Race.stepWorker, Race.joinerInv, Race.opsOf] using hj
      · simp [Race.stepWorker, Race.workerInvBefore]
      · simp [Race.stepWorker, WorkerPhase.beforeRead]
    | rest todo =>
      cases todo with
      | nil => simpa [Race.stepWorker] using ⟨hj, hw, hr⟩
      | cons op ops =>
        have hf := workerEffect_fields ⟨c, st, en, false, j, .rest (op :: ops), log⟩ op
        have hj2 := hf.2.1
        simp only at hj2
        refine ⟨?_, ?_, ?_⟩
        · cases j <;>
            simpa [Race.stepWorker, Race.joinerInv, Race.opsOf, hf.1, hj2,
              List.filter_append] using hj
        · simp [Race.stepWorker, Race.workerInvBefore]
        · simp [Race.stepWorker, WorkerPhase.beforeRead]

theorem run_reachInv (sc : Scenario) (schedule : List Tid) (s : Race)
    (h : s.reachInv sc) : (Race.run sc s schedule).reachInv sc := by
  induction schedule generalizing s with
  | nil => simpa [Race.run] using h
  | cons t rest ih =>
    have hstep : (Race.step sc s t).reachInv sc := by
      cases t
      · exact stepJoiner_reachInv sc s h
      · exact stepWorker_reachInv sc s h
    simpa [Race.run] using ih _ hstep

theorem start_reachInv (sc : Scenario) : sc.start.reachInv sc := by
  simp [Race.reachInv, Scenario.start, Race.joinerInv, Race.workerInvBefore, Race.opsOf,
    Race.closureRan]

theorem cancelInv_of_reach (sc : Scenario) (s : Race) (h : s.reachInv sc)
    (hstore : s.cancelled = true) (hread : s.worker.beforeRead = true) :
    s.cancelInv sc := by
  obtain ⟨hj, hw, hr⟩ := h
  refine ⟨hstore, hj, ?_, hr hread⟩
  rcases s with ⟨c, st, en, hl, j, w, log⟩
  cases w with
  | entry => simpa [Race.workerInvCancelled, Race.workerInvBefore] using hw
  | check => simpa [Race.workerInvCancelled, Race.workerInvBefore] using hw
  | rest todo => simp [WorkerPhase.beforeRead] at hread

/-- C10, as stated, fails: a timed-out wait does not keep the closure from running.  In
the run of `racingSchedule` on `raceExample` the joiner's wait returns `WAIT_TIMEOUT`
with neither event raised, then the worker raises the started event, reads the flag
while it is still clear and calls the closure, and only then the joiner writes the flag,
suspends and terminates the thread and completes `join()` without an error. -/
theorem closure_can_run_after_timeout :
    (Race.run raceExample raceExample.start racingSchedule).log =
      [(.joiner, .WaitForMultipleObjects [0x1A4, 0x1A8] false 3000),
       (.worker, .SetEvent 0x1B4),
       (.worker, .InvokeFn 1),
       (.joiner, .StoreCancelled 0x7000 true),
       (.joiner, .MemoryBarrier),
       (.joiner, .SuspendThread 0x1A0),
       (.joiner, .TerminateThread 0x1A0 0),
       (.joiner, .CloseHandle 0x1A0),
       (.joiner, .CloseHandle 0x1A4),
       (.joiner, .CloseHandle 0x1A8)] ∧
    (Race.run raceExample raceExample.start [.joiner]).waitReturned = true ∧
    (Race.run raceExample raceExample.start [.joiner]).started = false ∧
    (Race.run raceExample raceExample.start [.joiner]).ended = false ∧
    (Race.run raceExample raceExample.start racingSchedule).closureRan = true ∧
    (Race.run raceExample raceExample.start racingSchedule).joiner = .rest [] ∧
    (raceExample.self.join
      { currentThreadId := raceExample.caller, waitResult := WAIT_TIMEOUT,
        pollResult := 0 }).thrown = none := by
  refine ⟨?_, ?_, ?_, ?_, ?_, ?_, ?_⟩ <;> decide

/-- C10, amended: in every interleaving in which the flag `m_threadCancelled` is set
while the worker has not read it yet (after the schedule `before`), however the two
threads are scheduled afterwards (`after`) the closure is never executed, `join()` on the
timeout branch throws nothing, the joiner executes a prefix of wait, write of the flag,
memory barrier, suspend, terminate and the three closes in this order, and the worker
executes a prefix of: raise started, raise ended, delete, with no closure call. -/
theorem closure_skipped_when_flag_set_before_read (sc : Scenario) (before after : List Tid)
    (hlive : sc.self.joinable = true) (hcaller : sc.caller ≠ sc.self.m_id)
    (hstore : (Race.run sc sc.start before).cancelled = true)
    (hread : (Race.run sc sc.start before).worker.beforeRead = true) :
    (Race.run sc sc.start (before ++ after)).closureRan = false ∧
    (sc.self.join
      { currentThreadId := sc.caller, waitResult := WAIT_TIMEOUT, pollResult := 0 }).thrown
        = none ∧
    sc.joinerOps =
      [.WaitForMultipleObjects [sc.self.m_threadStarted, sc.self.m_threadEnded] false 3000,
       .StoreCancelled sc.self.m_initstruct true, .MemoryBarrier,
       .SuspendThread sc.self.m_thread, .TerminateThread sc.self.m_thread 0,
       .CloseHandle sc.self.m_thread, .CloseHandle sc.self.m_threadStarted,
       .CloseHandle sc.self.m_threadEnded] ∧
    (∃ todo, (Race.run sc sc.start (before ++ after)).opsOf .joiner ++ todo = sc.joinerOps) ∧
    (∃ todo, (Race.run sc sc.start (before ++ after)).opsOf .worker ++ todo
      = sc.workerOps true) ∧
    sc.workerOps true =
      [.SetEvent sc.init.m_threadStarted, .SetEvent sc.init.m_threadEnded,
       .CloseHandle sc.init.m_threadStarted, .CloseHandle sc.init.m_threadEnded,
       .FreeInitStruct sc.self.m_initstruct] := by
  have hreach := run_reachInv sc before sc.start (start_reachInv sc)
  have hcancel := cancelInv_of_reach sc _ hreach hstore hread
  have hfinal := run_cancelInv sc after _ hcancel
  rw [← run_append] at hfinal
  obtain ⟨_, hj, hw, hr⟩ := hfinal
  refine ⟨hr, ?_, joinerOps_of_live sc hlive hcaller, ?_, ?_, workerOps_cancelled sc⟩
  · rw [join_of_live _ _ hlive hcaller]
  · generalize Race.run sc sc.start (before ++ after) = s at hj
    rcases s with ⟨c, st, en, hl, j, w, log⟩
    cases j with
    | waiting =>
      refine ⟨sc.joinerOps, ?_⟩
      simp only [Race.joinerInv] at hj
      simp [hj]
    | rest todo => exact ⟨todo, hj⟩
  · generalize Race.run sc sc.start (before ++ after) = s at hw
    rcases s with ⟨c, st, en, hl, j, w, log⟩
    cases w with
    | entry =>
      refine ⟨sc.workerOps true, ?_⟩
      simp only [Race.workerInvCancelled] at hw
      simp [hw]
    | check =>
      refine ⟨(sc.workerOps true).tail, ?_⟩
      simp only [Race.workerInvCancelled] at hw
      simp [hw, workerOps_cancelled]
    | rest todo => exact ⟨todo, hw⟩

theorem closure_skipped_when_flag_set_before_read_witness :
    (Race.run raceExample raceExample.start [.joiner, .joiner]).cancelled = true ∧
    (Race.run raceExample raceExample.start
      ([.joiner, .joiner] ++ [.worker, .worker, .worker, .joiner, .worker])).closureRan
        = false :=
  ⟨by decide,
   (closure_skipped_when_flag_set_before_read raceExample [.joiner, .joiner]
      [.worker, .worker, .worker, .joiner, .worker]
      (by decide) (by decide) (by decide) (by decide)).1⟩

end Dllthread
